import Mathlib

/-!
Verification of `src/api/python/common/util.py`.

The file under verification has two functions:

* `background_thread_loop()` — a context manager that creates a fresh asyncio
  event loop, starts one daemon thread running
  `run_forever(loop) = asyncio.set_event_loop(loop); loop.run_forever()`,
  and yields the loop; there is no code after the yield.

* `run_async(coro, loop, timeout=None)` — submits `coro` to `loop` via
  `asyncio.run_coroutine_threadsafe`, then calls `fut.result(timeout)` inside
  a `try` whose only handler is `except concurrent.futures.TimeoutError:
  return None, False`; on success it returns `(value, True)`.

The embedding below models Python values and exceptions, the observable
behavior of a submitted coroutine (resolving at some instant with a value or
an exception, or never resolving), the semantics of
`concurrent.futures.Future.result(timeout)`, and the process state touched by
`background_thread_loop` (allocated loops and thread records).
-/

namespace Flame

/-- A Python value as far as this code observes it: the result of a
coroutine can be any object, including `None`. -/
inductive PyVal : Type where
  | none : PyVal
  | int : Int → PyVal
  | str : String → PyVal
  deriving DecidableEq, Repr

/-- A Python exception, identified by its class (plus payload). The only
class the code under verification tests for is
`concurrent.futures.TimeoutError`. -/
inductive PyExc : Type where
  | timeoutError : PyExc
  | valueError : String → PyExc
  | runtimeError : String → PyExc
  deriving DecidableEq, Repr

/-- Whether an exception matches the `except concurrent.futures.TimeoutError`
clause in `run_async`. -/
def PyExc.isTimeoutError : PyExc → Bool
  | .timeoutError => true
  | _ => false

instance : DecidableEq (Except PyExc PyVal) := fun a b =>
  match a, b with
  | .ok x, .ok y =>
      if h : x = y then .isTrue (by rw [h])
      else .isFalse (by intro hh; injection hh; exact h (by assumption))
  | .error x, .error y =>
      if h : x = y then .isTrue (by rw [h])
      else .isFalse (by intro hh; injection hh; exact h (by assumption))
  | .ok _, .error _ => .isFalse (fun h => Except.noConfusion h)
  | .error _, .ok _ => .isFalse (fun h => Except.noConfusion h)

/-- Observable behavior of a submitted coroutine once scheduled on the loop:
it resolves at some instant (measured from submission) with either a value or
a raised exception, or it never resolves. -/
inductive CoroBehavior : Type where
  | resolves : Nat → Except PyExc PyVal → CoroBehavior
  | neverResolves : CoroBehavior
  deriving DecidableEq, Repr

/-- The coroutine resolves (with a value or an exception) no later than
instant `d` after submission. -/
def CoroBehavior.resolvesWithin : CoroBehavior → Nat → Bool
  | .resolves t _, d => t ≤ d
  | .neverResolves, _ => false

/-- A work item as it sits in the event loop after a thread-safe hand-off:
the coroutine plus whether anyone has cancelled it. `run_async` never
cancels, so the flag can only be the `false` it was created with. -/
structure SubmittedWork where
  coro : CoroBehavior
  cancelled : Bool
  deriving DecidableEq, Repr

/-- The state of an asyncio event loop that this code can affect: the queue
of work handed to it, in submission order. -/
structure EventLoop where
  scheduled : List SubmittedWork
  deriving DecidableEq, Repr

/-- A `concurrent.futures.Future` returned by
`asyncio.run_coroutine_threadsafe`: it tracks the submitted coroutine (whose
resolution it mirrors) and the index of the queue entry it belongs to. -/
structure Fut where
  coro : CoroBehavior
  idx : Nat
  deriving DecidableEq, Repr

/-- Embedding of `asyncio.run_coroutine_threadsafe(coro, loop)`: a
thread-safe hand-off that appends the work item (not cancelled) to the
loop's queue and returns a future for it. -/
def run_coroutine_threadsafe (coro : CoroBehavior) (loop : EventLoop) :
    Fut × EventLoop :=
  (⟨coro, loop.scheduled.length⟩,
   ⟨loop.scheduled ++ [⟨coro, false⟩]⟩)

/-- Outcome of a call to `concurrent.futures.Future.result(timeout)`: a
returned value, a raised exception (either the work's own exception
re-raised, or a `TimeoutError` signalling that the wait timed out), or the
call never returning (possible only with `timeout=None`). -/
inductive WaitOutcome : Type where
  | ok : PyVal → WaitOutcome
  | exc : PyExc → WaitOutcome
  | hangs : WaitOutcome
  deriving DecidableEq, Repr

/-- Embedding of `fut.result(timeout)`. With a finite timeout `d`: if the
coroutine resolves by `d` the call returns its value or re-raises its
exception, otherwise it raises `concurrent.futures.TimeoutError`. With
`timeout=None` the call blocks until resolution (forever if the coroutine
never resolves). -/
def Fut.result (fut : Fut) (timeout : Option Nat) : WaitOutcome :=
  match timeout with
  | Option.some d =>
      match fut.coro with
      | .resolves t (Except.ok v) =>
          if t ≤ d then .ok v else .exc PyExc.timeoutError
      | .resolves t (Except.error e) =>
          if t ≤ d then .exc e else .exc PyExc.timeoutError
      | .neverResolves => .exc PyExc.timeoutError
  | Option.none =>
      match fut.coro with
      | .resolves _ (Except.ok v) => .ok v
      | .resolves _ (Except.error e) => .exc e
      | .neverResolves => .hangs

/-- What a call to `run_async` does from the caller's point of view: return
a `(value, flag)` pair, raise an exception, or never return. -/
inductive RunAsyncResult : Type where
  | returns : PyVal → Bool → RunAsyncResult
  | raises : PyExc → RunAsyncResult
  | hangs : RunAsyncResult
  deriving DecidableEq, Repr

/-- Embedding of `run_async(coro, loop, timeout)` (the Python default for
`timeout` is `None`, i.e. `Option.none` here). It hands the coroutine to the
loop with `run_coroutine_threadsafe`, then evaluates `fut.result(timeout)`
inside a `try` whose only handler catches `concurrent.futures.TimeoutError`
and returns `(None, False)`; a successful result `v` is returned as
`(v, True)`; any other exception propagates. The second component of the
result is the loop state after the call (the hand-off is the only mutation
the function performs). -/
def run_async (coro : CoroBehavior) (loop : EventLoop)
    (timeout : Option Nat) : RunAsyncResult × EventLoop :=
  let p := run_coroutine_threadsafe coro loop
  match p.1.result timeout with
  | .ok v => (.returns v true, p.2)
  | .exc e =>
      if e.isTimeoutError then (.returns PyVal.none false, p.2)
      else (.raises e, p.2)
  | .hangs => (.hangs, p.2)

/-- Identifier of an asyncio event loop as allocated by
`background_thread_loop`. -/
abbrev LoopId := Nat

/-- A statement of the thread body `run_forever` in the source. -/
inductive ThreadStmt : Type where
  | setEventLoop : LoopId → ThreadStmt
  | runForeverStmt : LoopId → ThreadStmt
  deriving DecidableEq, Repr

/-- Embedding of the nested function
`run_forever(loop): asyncio.set_event_loop(loop); loop.run_forever()`
as the list of statements it executes. -/
def run_forever (loop : LoopId) : List ThreadStmt :=
  [ThreadStmt.setEventLoop loop, ThreadStmt.runForeverStmt loop]

/-- Thread-local state: the loop installed by `asyncio.set_event_loop`, if
any. -/
structure ThreadEnv where
  currentLoop : Option LoopId
  deriving DecidableEq, Repr

/-- Executing one statement of a thread body. `asyncio.set_event_loop(l)`
installs `l` as the thread's active loop; `loop.run_forever()` never returns
under normal operation, modelled as `Option.none`. -/
def ThreadStmt.exec : ThreadStmt → ThreadEnv → Option ThreadEnv
  | .setEventLoop l, _ => Option.some ⟨Option.some l⟩
  | .runForeverStmt _, _ => Option.none

/-- Executing a thread body statement by statement; `Option.none` means the
body never finishes. -/
def runBody : List ThreadStmt → ThreadEnv → Option ThreadEnv
  | [], env => Option.some env
  | stmt :: rest, env =>
      match stmt.exec env with
      | Option.some env1 => runBody rest env1
      | Option.none => Option.none

/-- A thread object as created by
`Thread(target=run_forever, args=(loop,), daemon=True)`: its body, its
daemon flag, and whether it has been started or joined. -/
structure ThreadRec where
  body : List ThreadStmt
  daemon : Bool
  started : Bool
  joined : Bool
  deriving DecidableEq, Repr

/-- The effect of `thread.start()` on a thread record. -/
def ThreadRec.start (t : ThreadRec) : ThreadRec :=
  { t with started := true }

/-- Process state touched by `background_thread_loop`: the event loops
allocated so far and the threads created so far. -/
structure ProcState where
  loops : List LoopId
  threads : List ThreadRec
  deriving DecidableEq, Repr

/-- Embedding of `asyncio.new_event_loop()`: allocate a fresh loop and
record it. -/
def new_event_loop (s : ProcState) : LoopId × ProcState :=
  (s.loops.length, { s with loops := s.loops ++ [s.loops.length] })

/-- Embedding of `Thread(target=..., args=(loop,), daemon=...)`: create a
thread object (not yet started) and record it. -/
def thread_create (t : ThreadRec) (s : ProcState) : Nat × ProcState :=
  (s.threads.length, { s with threads := s.threads ++ [t] })

/-- Embedding of `thread.start()` on the thread with index `tid`. -/
def thread_start (tid : Nat) (s : ProcState) : ProcState :=
  match s.threads[tid]? with
  | Option.some t => { s with threads := s.threads.set tid t.start }
  | Option.none => s

/-- Embedding of the body of `background_thread_loop()` up to and including
the `yield`: `_loop = asyncio.new_event_loop()`, then
`_thread = Thread(target=run_forever, args=(_loop,), daemon=True)`, then
`_thread.start()`, then `yield _loop`. Returns the yielded handle and the
resulting process state. -/
def background_thread_loop_enter (s : ProcState) : LoopId × ProcState :=
  let p := new_event_loop s
  let t : ThreadRec :=
    { body := run_forever p.1, daemon := true, started := false, joined := false }
  let q := thread_create t p.2
  (p.1, thread_start q.1 q.2)

/-- Embedding of the code of `background_thread_loop()` after the `yield`:
the source has none, so leaving the scope changes nothing. -/
def background_thread_loop_exit (s : ProcState) : ProcState := s

/-- Embedding of the acquisition path of `background_thread_loop` with
fallible primitives: the same straight-line sequence as
`background_thread_loop_enter`, where loop creation and thread start are
supplied as operations that may raise. The source wraps neither in a
`try`, so any failure propagates to the caller. -/
def background_thread_loop_enterE
    (newLoopE : ProcState → Except PyExc (LoopId × ProcState))
    (threadStartE : ThreadRec → ProcState → Except PyExc (Nat × ProcState))
    (s : ProcState) : Except PyExc (LoopId × ProcState) := do
  let r ← newLoopE s
  let t : ThreadRec :=
    { body := run_forever r.1, daemon := true, started := false, joined := false }
  let r2 ← threadStartE t r.2
  pure (r.1, r2.2)

/-- C1: for every WorkItem that completes successfully with value `v` before
the given timeout elapses, `run_async` returns the pair `(v, true)`. -/
theorem run_async_success (v : PyVal) (t d : Nat) (loop : EventLoop)
    (h : t ≤ d) :
    (run_async (.resolves t (Except.ok v)) loop (Option.some d)).1 =
      RunAsyncResult.returns v true := by
  simp [run_async, run_coroutine_threadsafe, Fut.result, h]

/-- Witness for C1 at a concrete input. -/
theorem run_async_success_witness :
    (0 : Nat) ≤ 5 ∧
      (run_async (.resolves 0 (Except.ok (PyVal.int 42))) ⟨[]⟩
          (Option.some 5)).1 = RunAsyncResult.returns (PyVal.int 42) true :=
  ⟨by decide, run_async_success (PyVal.int 42) 0 5 ⟨[]⟩ (by decide)⟩

/-- C2 fails as stated: a WorkItem that fails before the timeout by raising
`concurrent.futures.TimeoutError` is not propagated; the `except
concurrent.futures.TimeoutError` clause catches the re-raised exception and
translates the failure into the `(None, false)` shape. -/
theorem run_async_failure_translated :
    (run_async (.resolves 0 (Except.error PyExc.timeoutError)) ⟨[]⟩
        (Option.some 10)).1 = RunAsyncResult.returns PyVal.none false := by
  decide

/-- C2 amended: for every WorkItem that fails before the timeout elapses
with an exception that is not a `concurrent.futures.TimeoutError`,
`run_async` propagates that original failure to the caller rather than
returning a `(None, false)` pair. -/
theorem run_async_failure_propagates (e : PyExc) (t d : Nat)
    (loop : EventLoop) (ht : t ≤ d) (he : e.isTimeoutError = false) :
    (run_async (.resolves t (Except.error e)) loop (Option.some d)).1 =
      RunAsyncResult.raises e := by
  simp [run_async, run_coroutine_threadsafe, Fut.result, ht, he]

/-- Witness for the amended C2 at a concrete input. -/
theorem run_async_failure_propagates_witness :
    (0 : Nat) ≤ 10 ∧ (PyExc.valueError "boom").isTimeoutError = false ∧
      (run_async (.resolves 0 (Except.error (PyExc.valueError "boom"))) ⟨[]⟩
          (Option.some 10)).1 =
        RunAsyncResult.raises (PyExc.valueError "boom") :=
  ⟨by decide, by decide,
    run_async_failure_propagates (PyExc.valueError "boom") 0 10 ⟨[]⟩
      (by decide) (by decide)⟩

/-- Helper: full evaluation of `run_async` with a finite timeout that
elapses before the coroutine resolves: the call returns `(None, false)` and
the loop ends up with exactly the one hand-off appended. -/
theorem run_async_not_resolved_eval (coro : CoroBehavior) (d : Nat)
    (loop : EventLoop) (h : coro.resolvesWithin d = false) :
    run_async coro loop (Option.some d) =
      (RunAsyncResult.returns PyVal.none false,
        ⟨loop.scheduled ++ [⟨coro, false⟩]⟩) := by
  cases coro with
  | resolves t out =>
      simp only [CoroBehavior.resolvesWithin, decide_eq_false_iff_not] at h
      cases out with
      | ok v =>
          simp [run_async, run_coroutine_threadsafe, Fut.result, if_neg h,
            PyExc.isTimeoutError]
      | error e =>
          simp [run_async, run_coroutine_threadsafe, Fut.result, if_neg h,
            PyExc.isTimeoutError]
  | neverResolves =>
      simp [run_async, run_coroutine_threadsafe, Fut.result,
        PyExc.isTimeoutError]

/-- C3: for every call with a finite timeout, if the timeout elapses before
the WorkItem resolves, `run_async` returns exactly `(None, false)` as a
normal return value (not a raised exception, not a hang). -/
theorem run_async_timeout_pair (coro : CoroBehavior) (d : Nat)
    (loop : EventLoop) (h : coro.resolvesWithin d = false) :
    (run_async coro loop (Option.some d)).1 =
      RunAsyncResult.returns PyVal.none false := by
  rw [run_async_not_resolved_eval coro d loop h]

/-- Witness for C3 at a concrete input. -/
theorem run_async_timeout_pair_witness :
    (CoroBehavior.resolves 7 (Except.ok (PyVal.int 1))).resolvesWithin 3 =
        false ∧
      (run_async (.resolves 7 (Except.ok (PyVal.int 1))) ⟨[]⟩
          (Option.some 3)).1 = RunAsyncResult.returns PyVal.none false :=
  ⟨by decide,
    run_async_timeout_pair (.resolves 7 (Except.ok (PyVal.int 1))) 3 ⟨[]⟩
      (by decide)⟩

/-- C4 fails as stated: with `timeout=None`, a WorkItem that resolves by
raising `concurrent.futures.TimeoutError` makes `run_async` return
`(None, false)` — a pair whose second component is `false` — because the
`except` clause catches the re-raised exception. -/
theorem run_async_no_timeout_false_flag :
    (run_async (.resolves 7 (Except.error PyExc.timeoutError)) ⟨[]⟩
        Option.none).1 = RunAsyncResult.returns PyVal.none false := by
  decide

/-- C4 amended: with `timeout=None` the call blocks until the WorkItem
resolves, no matter at which instant that happens (and hangs forever only if
the WorkItem never resolves); a successful WorkItem yields `(value, true)`,
and a WorkItem failing with anything other than a
`concurrent.futures.TimeoutError` has its failure propagated, so the `false`
flag can only arise from a WorkItem that itself raised a
`concurrent.futures.TimeoutError`. -/
theorem run_async_no_timeout_blocks (loop : EventLoop) (t : Nat) (v : PyVal)
    (e : PyExc) (he : e.isTimeoutError = false) :
    (run_async (.resolves t (Except.ok v)) loop Option.none).1 =
        RunAsyncResult.returns v true ∧
      (run_async (.resolves t (Except.error e)) loop Option.none).1 =
        RunAsyncResult.raises e ∧
      (run_async CoroBehavior.neverResolves loop Option.none).1 =
        RunAsyncResult.hangs := by
  refine ⟨?_, ?_, ?_⟩
  · simp [run_async, run_coroutine_threadsafe, Fut.result]
  · simp [run_async, run_coroutine_threadsafe, Fut.result, he]
  · simp [run_async, run_coroutine_threadsafe, Fut.result]

/-- Witness for the amended C4 at a concrete input. -/
theorem run_async_no_timeout_blocks_witness :
    (PyExc.runtimeError "err").isTimeoutError = false ∧
      (run_async (.resolves 1000 (Except.ok (PyVal.int 9))) ⟨[]⟩
          Option.none).1 = RunAsyncResult.returns (PyVal.int 9) true :=
  ⟨by decide,
    (run_async_no_timeout_blocks ⟨[]⟩ 1000 (PyVal.int 9)
        (PyExc.runtimeError "err") (by decide)).1⟩

/-- C5: when `run_async` returns on the timeout branch, the only change to
the loop is the initial hand-off: the submitted WorkItem is still in the
queue, not cancelled, and every previously scheduled item is untouched. -/
theorem run_async_timeout_no_cancel (coro : CoroBehavior) (d : Nat)
    (loop : EventLoop) (h : coro.resolvesWithin d = false) :
    (run_async coro loop (Option.some d)).1 =
        RunAsyncResult.returns PyVal.none false ∧
      (run_async coro loop (Option.some d)).2.scheduled =
        loop.scheduled ++ [⟨coro, false⟩] := by
  rw [run_async_not_resolved_eval coro d loop h]
  exact ⟨rfl, rfl⟩

/-- Helper: the loop state coming out of `run_async` is always the input
queue with exactly the one hand-off appended, whatever the wait does. -/
theorem run_async_snd (coro : CoroBehavior) (loop : EventLoop)
    (timeout : Option Nat) :
    (run_async coro loop timeout).2 = ⟨loop.scheduled ++ [⟨coro, false⟩]⟩ := by
  simp only [run_async, run_coroutine_threadsafe]
  split
  · rfl
  · split <;> rfl
  · rfl

/-- Witness for C5 at a concrete input. -/
theorem run_async_timeout_no_cancel_witness :
    CoroBehavior.neverResolves.resolvesWithin 4 = false ∧
      (run_async CoroBehavior.neverResolves ⟨[]⟩ (Option.some 4)).2.scheduled =
        [⟨CoroBehavior.neverResolves, false⟩] :=
  ⟨by decide,
    (run_async_timeout_no_cancel CoroBehavior.neverResolves 4 ⟨[]⟩
        (by decide)).2⟩

/-- Helper: looking up the element just appended to a list. -/
theorem getElem?_concat_len {α : Type} (xs : List α) (a : α) :
    (xs ++ [a])[xs.length]? = Option.some a := by
  induction xs with
  | nil => rfl
  | cons x xs ih => simp [ih]

/-- Helper: overwriting the element just appended to a list. -/
theorem set_concat_len {α : Type} (xs : List α) (a b : α) :
    (xs ++ [a]).set xs.length b = xs ++ [b] := by
  induction xs with
  | nil => rfl
  | cons x xs ih => simp [List.set, ih]

/-- Helper: full evaluation of the acquisition path: it allocates one fresh
loop, records one started daemon thread whose body is `run_forever` applied
to that loop, and yields that loop. -/
theorem background_thread_loop_enter_eval (s : ProcState) :
    background_thread_loop_enter s =
      (s.loops.length,
        { loops := s.loops ++ [s.loops.length],
          threads := s.threads ++
            [{ body := run_forever s.loops.length, daemon := true,
               started := true, joined := false }] }) := by
  simp [background_thread_loop_enter, new_event_loop, thread_create,
    thread_start, ThreadRec.start, getElem?_concat_len, set_concat_len]

/-- C6: each acquisition via `background_thread_loop` allocates exactly one
new event loop and creates and starts exactly one thread; that thread's body
is `run_forever` applied to the new loop, whose first statement installs the
loop as the thread's active loop and whose execution never returns; the
handle yielded to the caller is that same loop. -/
theorem background_thread_loop_enter_spec (s : ProcState) :
    (background_thread_loop_enter s).2.loops =
        s.loops ++ [(background_thread_loop_enter s).1] ∧
      (background_thread_loop_enter s).2.threads =
        s.threads ++
          [{ body := run_forever (background_thread_loop_enter s).1,
             daemon := true, started := true, joined := false }] ∧
      (∀ env : ThreadEnv,
        ThreadStmt.exec
            (ThreadStmt.setEventLoop (background_thread_loop_enter s).1)
            env =
          Option.some ⟨Option.some (background_thread_loop_enter s).1⟩) ∧
      (∀ env : ThreadEnv,
        runBody (run_forever (background_thread_loop_enter s).1) env =
          Option.none) := by
  rw [background_thread_loop_enter_eval]
  exact ⟨rfl, rfl, fun env => rfl, fun env => rfl⟩

/-- C7: every call to `run_async` enqueues exactly one execution of the
WorkItem on the target loop — even when the wait afterwards times out or
never returns — and a call with a timeout of zero on work that has not
already completed still enqueues and returns `(None, false)`. -/
theorem run_async_enqueues_once (coro : CoroBehavior) (loop : EventLoop)
    (timeout : Option Nat) :
    (run_async coro loop timeout).2.scheduled =
        loop.scheduled ++ [⟨coro, false⟩] ∧
      (coro.resolvesWithin 0 = false →
        (run_async coro loop (Option.some 0)).1 =
          RunAsyncResult.returns PyVal.none false) := by
  constructor
  · rw [run_async_snd]
  · intro h
    rw [run_async_not_resolved_eval coro 0 loop h]

/-- Witness for C7 at a concrete input. -/
theorem run_async_enqueues_once_witness :
    (run_async (.resolves 3 (Except.ok PyVal.none)) ⟨[]⟩
          (Option.some 0)).2.scheduled =
        [⟨.resolves 3 (Except.ok PyVal.none), false⟩] ∧
      (CoroBehavior.resolves 3 (Except.ok PyVal.none)).resolvesWithin 0 =
        false ∧
      (run_async (.resolves 3 (Except.ok PyVal.none)) ⟨[]⟩
          (Option.some 0)).1 = RunAsyncResult.returns PyVal.none false := by
  have h := run_async_enqueues_once (.resolves 3 (Except.ok PyVal.none)) ⟨[]⟩
    (Option.some 0)
  exact ⟨h.1, by decide, h.2 (by decide)⟩

/-- C8: leaving the scope of `background_thread_loop` runs no code at all:
the process state is unchanged, and in particular the dedicated thread —
created with `daemon=True` — is still recorded as started and has never
been joined. -/
theorem background_thread_loop_exit_spec (s : ProcState) :
    (∀ s0 : ProcState, background_thread_loop_exit s0 = s0) ∧
      (background_thread_loop_exit
            (background_thread_loop_enter s).2).threads.getLast? =
        Option.some
          { body := run_forever (background_thread_loop_enter s).1,
            daemon := true, started := true, joined := false } := by
  refine ⟨fun s0 => rfl, ?_⟩
  rw [background_thread_loop_enter_eval]
  exact List.getLast?_concat _

/-- C9: if loop creation or thread start fails inside the acquisition path,
the failure propagates verbatim to the caller — the first conjunct covers a
failing `asyncio.new_event_loop`, the second a failing `Thread(...).start()`
after a successful loop creation; nothing is caught or retried. -/
theorem background_thread_loop_acquisition_failure
    (nl : ProcState → Except PyExc (LoopId × ProcState))
    (ts : ThreadRec → ProcState → Except PyExc (Nat × ProcState))
    (s s1 : ProcState) (l : LoopId) (e e1 : PyExc) :
    (nl s = Except.error e →
        background_thread_loop_enterE nl ts s = Except.error e) ∧
      (nl s = Except.ok (l, s1) →
        ts { body := run_forever l, daemon := true, started := false,
             joined := false } s1 = Except.error e1 →
        background_thread_loop_enterE nl ts s = Except.error e1) := by
  constructor
  · intro h
    simp [background_thread_loop_enterE, h, Bind.bind, Except.bind]
  · intro h h2
    simp [background_thread_loop_enterE, h, h2, Bind.bind, Except.bind,
      Functor.map, Except.map]

/-- Witness for C9 at concrete inputs: a failing loop creation propagates. -/
theorem background_thread_loop_acquisition_failure_witness :
    background_thread_loop_enterE
        (fun _ => Except.error (PyExc.runtimeError "boom"))
        (fun _ s0 => Except.ok (0, s0)) ⟨[], []⟩ =
      Except.error (PyExc.runtimeError "boom") :=
  (background_thread_loop_acquisition_failure
      (fun _ => Except.error (PyExc.runtimeError "boom"))
      (fun _ s0 => Except.ok (0, s0)) ⟨[], []⟩ ⟨[], []⟩ 0
      (PyExc.runtimeError "boom") (PyExc.runtimeError "boom")).1 rfl

/-- C10: a WorkItem that completes successfully with the value `None` within
the timeout makes `run_async` return `(None, true)`, which differs from the
timeout shape `(None, false)` only in the boolean flag. -/
theorem run_async_none_value (t d : Nat) (loop : EventLoop) (h : t ≤ d) :
    (run_async (.resolves t (Except.ok PyVal.none)) loop
          (Option.some d)).1 = RunAsyncResult.returns PyVal.none true ∧
      (run_async (.resolves t (Except.ok PyVal.none)) loop
          (Option.some d)).1 ≠ RunAsyncResult.returns PyVal.none false := by
  have he : (run_async (.resolves t (Except.ok PyVal.none)) loop
      (Option.some d)).1 = RunAsyncResult.returns PyVal.none true := by
    simp [run_async, run_coroutine_threadsafe, Fut.result, h]
  refine ⟨he, ?_⟩
  rw [he]
  decide

/-- Witness for C10 at a concrete input. -/
theorem run_async_none_value_witness :
    (2 : Nat) ≤ 5 ∧
      (run_async (.resolves 2 (Except.ok PyVal.none)) ⟨[]⟩
          (Option.some 5)).1 = RunAsyncResult.returns PyVal.none true :=
  ⟨by decide, (run_async_none_value 2 5 ⟨[]⟩ (by decide)).1⟩

end Flame
